import Mathlib

/-!
# Verification of the call-page Peer Session Manager

Shallow embedding of the call page component (source file `src/unnamed/part_000`,
a React function component) and of the properties stated about it.

## Modelling notes: React closure capture

The component keeps its data in React state hooks (`useState`).  The mount
effect (`useEffect(..., [user, sessionId])`, source lines 45-217) runs exactly
once, at the first render where both `user` and `sessionId` are available.  At
that render the state variables `localStream`, `currentCall` and `peer` are all
still `null`.  Every closure created inside that effect body - the
`newPeer.on("call")` handler (lines 134-146), `attemptConnection`
(lines 101-125), `setupCallHandlers` and the `call.on("error")` /
`call.on("close")` handlers it installs (lines 192-202), the `cleanupMedia`
binding those handlers reference, and the unmount cleanup returned at
line 207 - closes over the bindings of that single render.  In JavaScript a
later `setLocalStream` / `setCurrentCall` produces a new render with new
bindings but does not change what the already-created closures see: they read
the values captured at the mount render, i.e. `null`, forever.

We therefore embed every function of the source that reads those state
variables with an explicit `CapturedEnv` argument holding the snapshot the
closure captured.  The closures created inside the mount effect are applied to
`mountEnv` (the all-`none` snapshot); closures that are re-created on every
render and invoked fresh - the countdown effect (lines 248-256, whose
dependency array contains `timeLeft`, so it re-runs each second with current
bindings) and the `toggleMute` / `toggleVideo` click handlers (lines 283-299,
re-bound to the buttons on every render) - see the live state, expressed by
`liveEnv` or by reading the state record directly.

`setX` state setters write the live state record.  `useRef` refs
(`localVideoRef`, `remoteVideoRef`) are stable mutable cells whose `current`
field is read at call time, so they are ordinary fields of the live state.

Media tracks and calls are heap objects shared by reference between the state
record and local variables, so the state keeps registries `tracks : List
TrackObj` and `calls : List CallObj`, and streams / call references are
indices into them.  `TrackObj.stopCount` counts invocations of
`MediaStreamTrack.stop()` on the track (the platform call is harmless on an
already ended track, so repeated invocation cannot throw; the counter lets us
state "stopped exactly once").  `PeerObj.destroyed` models the PeerJS
`Peer.destroy()` flag; PeerJS makes `destroy()` a no-op when the flag is
already set.  Broker-visible operations (register, dial, answer, close,
destroy) are accumulated in an emission log `brokerOps` so that frame
properties ("emits no broker-level call") are meaningful.
-/

namespace CallPage

/-- One local media track.  `enabled` is the `MediaStreamTrack.enabled` flag
flipped by the toggles; `stopCount` counts how many times `stop()` has been
invoked on the track. -/
structure TrackObj where
  enabled : Bool
  stopCount : Nat
deriving DecidableEq, Repr

/-- A local capture stream (`MediaStream`): the indices of its audio tracks
and of its video tracks in the page track registry. -/
structure StreamObj where
  audio : List Nat
  video : List Nat
deriving DecidableEq, Repr

/-- The broker connection object (PeerJS `Peer`). -/
structure PeerObj where
  peerId : String
  destroyed : Bool
deriving DecidableEq, Repr

/-- A media call (PeerJS `MediaConnection`).  `inbound` records whether it was
answered (inbound offer) or dialed (outbound attempt). -/
structure CallObj where
  remotePeer : String
  inbound : Bool
  closed : Bool
deriving DecidableEq, Repr

/-- Broker-level operations emitted by the page, in order. -/
inductive BrokerOp where
  | register (id : String)
  | dial (remote : String)
  | answer (remote : String)
  | closeCall
  | destroyPeer
deriving DecidableEq, Repr

/-- The live component state: the React state hooks (with their `useState`
defaults, source lines 12-28), the two video-element refs, the object
registries, the router navigation log, and the broker emission log. -/
structure PageState where
  timeLeft : Int := 3600
  error : Option String := none
  connectionStatus : String := "Initializing..."
  currentCall : Option Nat := none
  localStream : Option StreamObj := none
  isMuted : Bool := false
  isVideoOff : Bool := false
  partnerPeerId : Option String := none
  localVideoSrc : Option StreamObj := none
  remoteVideoSrc : Option Nat := none
  peer : Option PeerObj := none
  tracks : List TrackObj := []
  calls : List CallObj := []
  pushes : List String := []
  brokerOps : List BrokerOp := []
deriving DecidableEq, Repr

/-- The state-variable snapshot a closure captured at its creation render:
the values of `localStream`, `currentCall` and (whether non-null) `peer` it
read.  `peerCaptured = true` means the captured `peer` binding aliases the
peer object currently stored in the live state. -/
structure CapturedEnv where
  localStream : Option StreamObj
  currentCall : Option Nat
  peerCaptured : Bool
deriving DecidableEq, Repr

/-- Snapshot seen by every closure created inside the mount effect: at the
render where that effect ran, `localStream`, `currentCall` and `peer` were all
still `null` (nothing had set them yet). -/
def mountEnv : CapturedEnv := { localStream := none, currentCall := none, peerCaptured := false }

/-- Snapshot seen by a closure created at the current render (for example the
countdown effect body, which re-runs whenever `timeLeft` changes and hence
closes over current bindings). -/
def liveEnv (s : PageState) : CapturedEnv :=
  { localStream := s.localStream, currentCall := s.currentCall, peerCaptured := s.peer.isSome }

/-- Invoke `stop()` on every track whose index is listed: increment its
`stopCount`.  Walks the registry with its position `j`.  A stream never lists
the same track twice, so each listed track receives one invocation. -/
def stopTracks (idxs : List Nat) : List TrackObj → Nat → List TrackObj
  | [], _ => []
  | t :: ts, j =>
      (if j ∈ idxs then { t with stopCount := t.stopCount + 1 } else t) :: stopTracks idxs ts (j + 1)

/-- Flip the `enabled` flag of every track whose index is listed (the
`forEach(track => track.enabled = !track.enabled)` of the toggles). -/
def flipEnabled (idxs : List Nat) : List TrackObj → Nat → List TrackObj
  | [], _ => []
  | t :: ts, j =>
      (if j ∈ idxs then { t with enabled := !t.enabled } else t) :: flipEnabled idxs ts (j + 1)

/-- Close the call stored at the given registry index. -/
def closeCallAt (i : Nat) : List CallObj → Nat → List CallObj
  | [], _ => []
  | c :: cs, j => (if j = i then { c with closed := true } else c) :: closeCallAt i cs (j + 1)

/-- Record a `router.push`. -/
def pushRoute (r : String) (s : PageState) : PageState :=
  { s with pushes := s.pushes ++ [r] }

/-- `cleanupMedia` (source lines 258-281), with the captured bindings of the
invoking closure made explicit as `env`:

* `if (localStream) { getTracks().forEach(stop); setLocalStream(null) }`
* `if (currentCall) { currentCall.close(); setCurrentCall(null) }`
* clear both video refs (refs are read live)
* `if (peer) { peer.destroy() }` - note the peer state variable is never set
  to `null` here; PeerJS makes `destroy()` a no-op once `destroyed` is set,
  and a destroyed peer emits nothing further to the broker. -/
def cleanupMedia (env : CapturedEnv) (s : PageState) : PageState :=
  let s1 := match env.localStream with
    | some st =>
        { s with tracks := stopTracks (st.audio ++ st.video) s.tracks 0, localStream := none }
    | none => s
  let s2 := match env.currentCall with
    | some ci =>
        { s1 with calls := closeCallAt ci s1.calls 0, currentCall := none,
                  brokerOps := s1.brokerOps ++ [BrokerOp.closeCall] }
    | none => s1
  let s3 := { s2 with localVideoSrc := none, remoteVideoSrc := none }
  if env.peerCaptured then
    match s3.peer with
    | some p =>
        if p.destroyed then s3
        else { s3 with peer := some { p with destroyed := true },
                       brokerOps := s3.brokerOps ++ [BrokerOp.destroyPeer] }
    | none => s3
  else s3

/-- The `call.on("error")` handler installed by `setupCallHandlers`
(source lines 192-196): `setError("Call connection failed")` then
`cleanupMedia()`.  The handler is a closure created inside the mount effect,
so its `cleanupMedia` reads the mount snapshot. -/
def onCallError (s : PageState) : PageState :=
  cleanupMedia mountEnv { s with error := some "Call connection failed" }

/-- The `call.on("close")` handler (source lines 198-202):
`setConnectionStatus("Call ended")` then `cleanupMedia()`, likewise with the
mount snapshot. -/
def onCallClose (s : PageState) : PageState :=
  cleanupMedia mountEnv { s with connectionStatus := "Call ended" }

/-- `toggleMute` (source lines 283-290).  The click handler is re-created on
every render, so it reads the live state: if a local stream exists, flip the
`enabled` flag of each of its audio tracks and flip `isMuted`; otherwise do
nothing. -/
def toggleMute (s : PageState) : PageState :=
  match s.localStream with
  | some st => { s with tracks := flipEnabled st.audio s.tracks 0, isMuted := !s.isMuted }
  | none => s

/-- `toggleVideo` (source lines 292-299), symmetric for video tracks. -/
def toggleVideo (s : PageState) : PageState :=
  match s.localStream with
  | some st => { s with tracks := flipEnabled st.video s.tracks 0, isVideoOff := !s.isVideoOff }
  | none => s

/-- Flipping the listed flags twice restores the registry. -/
theorem flipEnabled_flipEnabled (idxs : List Nat) :
    ∀ (ts : List TrackObj) (j : Nat), flipEnabled idxs (flipEnabled idxs ts j) j = ts := by
  intro ts
  induction ts with
  | nil => intro j; rfl
  | cons t ts ih =>
      intro j
      by_cases h : j ∈ idxs
      · cases t with
        | mk e c => simp [flipEnabled, h, ih]
      · simp [flipEnabled, h, ih]

/-- C2: whenever a call-level error occurs or the remote side closes the call,
the handler only sets the status/error message and clears the two video-element
refs: the local capture stream and every track in the registry (their `enabled`
flags and stop counts) are untouched, no call or peer resource is destroyed,
and nothing is emitted to the broker.  In particular the MediaSession survives
the failure intact, available for reuse.  (The `cleanupMedia` these handlers
invoke reads the mount-render snapshot, in which `localStream`, `currentCall`
and `peer` are all `null`, so its destructive branches are never taken.) -/
theorem call_error_close_preserves_media_session (s : PageState) :
    onCallError s =
      { s with error := some "Call connection failed",
               localVideoSrc := none, remoteVideoSrc := none } ∧
    onCallClose s =
      { s with connectionStatus := "Call ended",
               localVideoSrc := none, remoteVideoSrc := none } := by
  constructor
  · rfl
  · rfl

/-- C7: toggling mute twice is the identity on the whole page state (so the
audio tracks and the `isMuted` indicator return to their original values), and
a single toggle emits no broker-level operation. -/
theorem mute_toggle_involutive_no_broker_ops (s : PageState) :
    toggleMute (toggleMute s) = s ∧ (toggleMute s).brokerOps = s.brokerOps := by
  constructor
  · cases hls : s.localStream with
    | none => simp [toggleMute, hls]
    | some st =>
        simp [toggleMute, hls, flipEnabled_flipEnabled]
        rw [← hls]
  · cases hls : s.localStream with
    | none => simp [toggleMute, hls]
    | some st => simp [toggleMute, hls]

/-- C9: with no local stream, both toggles are complete no-ops on the page
state. -/
theorem toggles_noop_without_stream (s : PageState) (h : s.localStream = none) :
    toggleMute s = s ∧ toggleVideo s = s := by
  constructor
  · simp [toggleMute, h]
  · simp [toggleVideo, h]

/-- Witness for C9 at a concrete state. -/
theorem toggles_noop_without_stream_witness :
    toggleMute { timeLeft := 42 } = { timeLeft := 42 } ∧
    toggleVideo { timeLeft := 42 } = { timeLeft := 42 } :=
  toggles_noop_without_stream { timeLeft := 42 } rfl

/-- `setupMediaStream` (source lines 69-85), success path: `getUserMedia`
yields a fresh stream with one audio and one video track; the new tracks are
appended to the registry, `setLocalStream(stream)` stores it, and the local
video ref is attached.  Returns the new state and the stream (the local
variable the caller binds). -/
def setupMediaStream (s : PageState) : PageState × StreamObj :=
  let n := s.tracks.length
  let st : StreamObj := { audio := [n], video := [n + 1] }
  ({ s with tracks := s.tracks ++ [{ enabled := true, stopCount := 0 }, { enabled := true, stopCount := 0 }],
            localStream := some st, localVideoSrc := some st }, st)

/-- `setupCallHandlers` (source lines 167-169, state-changing part):
`setCurrentCall(call)` and `setConnectionStatus("Call connecting...")`. -/
def setupCallHandlers (callIdx : Nat) (s : PageState) : PageState :=
  { s with currentCall := some callIdx, connectionStatus := "Call connecting..." }

/-- The `newPeer.on("call")` handler (source lines 134-146), a closure created
inside the mount effect, its captured `localStream` and `currentCall` explicit
as `env`:

* `const stream = localStream || await setupMediaStream()` - with the mount
  snapshot the captured `localStream` is `null`, so media is re-acquired;
* `if (!currentCall) { call.answer(stream); setupCallHandlers(call) }
  else { /- ignored, not rejected -/ }`. -/
def onIncomingCall (env : CapturedEnv) (remote : String) (s : PageState) : PageState :=
  let acquired := match env.localStream with
    | some st => (s, st)
    | none => setupMediaStream s
  let s1 := acquired.1
  match env.currentCall with
  | none =>
      let s2 := { s1 with calls := s1.calls ++ [{ remotePeer := remote, inbound := true, closed := false }],
                          brokerOps := s1.brokerOps ++ [BrokerOp.answer remote] }
      setupCallHandlers s1.calls.length s2
  | some _ => s1

/-- The partner-found branch of `attemptConnection` (source lines 106-120),
again a mount-effect closure with its captured `currentCall` explicit:
`setPartnerPeerId(partnerPeerId)`, then
`if (!currentCall) { const call = newPeer.call(partnerPeerId, stream);
setupCallHandlers(call) }`.  (The `stream` it dials with is the local variable
of the `open` handler, not the captured state.) -/
def attemptFound (env : CapturedEnv) (remote : String) (s : PageState) : PageState :=
  let s1 := { s with partnerPeerId := some remote }
  match env.currentCall with
  | none =>
      let s2 := { s1 with calls := s1.calls ++ [{ remotePeer := remote, inbound := false, closed := false }],
                          brokerOps := s1.brokerOps ++ [BrokerOp.dial remote] }
      setupCallHandlers s1.calls.length s2
  | some _ => s1

/-- State after the `open` handler has registered the peer identity and
acquired local media (source lines 87-99), before any call exists: the
scenario both call paths start from. -/
def afterOpenState (myId : String) : PageState :=
  (setupMediaStream
    { peer := some { peerId := myId, destroyed := false },
      connectionStatus := "Connected to server",
      brokerOps := [BrokerOp.register myId] }).1

/-- C1: the at-most-one-CallHandle invariant fails on the code.  Both guards
`if (!currentCall)` read the `currentCall` binding captured when the mount
effect ran - permanently `null` - so after an inbound offer has been answered,
the partner-discovery poll still dials out: the page ends up with TWO open
CallHandles (one answered, one dialed) and has emitted both an answer and a
dial to the broker, although a CallHandle already existed when the second
attempt was made. -/
theorem raced_two_call_handles :
    (attemptFound mountEnv "peer-B" (onIncomingCall mountEnv "peer-B" (afterOpenState "peer-A"))).calls =
      [{ remotePeer := "peer-B", inbound := true, closed := false },
       { remotePeer := "peer-B", inbound := false, closed := false }] ∧
    ((attemptFound mountEnv "peer-B" (onIncomingCall mountEnv "peer-B" (afterOpenState "peer-A"))).calls.filter
        (fun c => !c.closed)).length = 2 ∧
    (onIncomingCall mountEnv "peer-B" (afterOpenState "peer-A")).currentCall = some 0 := by
  refine ⟨rfl, rfl, rfl⟩

/-- C8: teardown does not stop the tracks even once.  Starting from a state
with live media and an open call, first the `call.on("error")` handler fires
and then the unmount cleanup (source lines 207-216) runs - both invoke
`cleanupMedia` through mount-effect closures whose captured `localStream`,
`currentCall` and `peer` are `null` - and afterwards every track in the
registry still has `stopCount = 0`, the stream is still held, the call is
still open and the peer is not destroyed: the capture device leaks instead of
being stopped exactly once. -/
theorem unmount_and_error_teardown_stops_no_tracks :
    (cleanupMedia mountEnv (onCallError (onIncomingCall mountEnv "peer-B" (afterOpenState "peer-A")))).tracks =
      [{ enabled := true, stopCount := 0 }, { enabled := true, stopCount := 0 },
       { enabled := true, stopCount := 0 }, { enabled := true, stopCount := 0 }] ∧
    (cleanupMedia mountEnv (onCallError (onIncomingCall mountEnv "peer-B" (afterOpenState "peer-A")))).localStream =
      some { audio := [2], video := [3] } ∧
    (cleanupMedia mountEnv (onCallError (onIncomingCall mountEnv "peer-B" (afterOpenState "peer-A")))).calls =
      [{ remotePeer := "peer-B", inbound := true, closed := false }] ∧
    (cleanupMedia mountEnv (onCallError (onIncomingCall mountEnv "peer-B" (afterOpenState "peer-A")))).peer =
      some { peerId := "peer-A", destroyed := false } := by
  refine ⟨rfl, rfl, rfl, rfl⟩

/-- The countdown effect body (source lines 248-256).  Its dependency array
contains `timeLeft`, so the effect re-runs at every render where `timeLeft`
changed, with fresh bindings: the `cleanupMedia` it calls reads the live
state.  Returns the new state and whether a 1-second decrement timeout was
scheduled: at `timeLeft <= 0` it tears everything down, navigates to the
text-chat fallback of the same session, and schedules nothing further. -/
def timerEffect (sid : String) (s : PageState) : PageState × Bool :=
  if s.timeLeft ≤ 0 then
    (pushRoute ("/chat/" ++ sid) (cleanupMedia (liveEnv s) s), false)
  else (s, true)

/-- Firing the scheduled 1-second timeout: `setTimeLeft(timeLeft - 1)`. -/
def fireCountdown (s : PageState) : PageState :=
  { s with timeLeft := s.timeLeft - 1 }

/-- Run the countdown loop for at most `fuel` effect executions: each
execution either schedules a decrement (whose firing re-triggers the effect)
or is terminal. -/
def runTimer (sid : String) : Nat → PageState → PageState
  | 0, s => s
  | n + 1, s =>
      match timerEffect sid s with
      | (s1, true) => runTimer sid n (fireCountdown s1)
      | (s1, false) => s1

/-- A call page in a connected call with 10 seconds left on the clock and no
further backend resync: live media (two tracks), one open CallHandle, a
registered peer. -/
def seededCallState : PageState :=
  { timeLeft := 10,
    connectionStatus := "Connected",
    currentCall := some 0,
    localStream := some { audio := [0], video := [1] },
    localVideoSrc := some { audio := [0], video := [1] },
    peer := some { peerId := "peer-A", destroyed := false },
    tracks := [{ enabled := true, stopCount := 0 }, { enabled := true, stopCount := 0 }],
    calls := [{ remotePeer := "peer-B", inbound := true, closed := false }] }

/-- C4: seeded with `timeLeft = 10` and left alone, the countdown needs
exactly 10 ticks to reach zero (after 9 it still shows 1, after 10 it shows 0
and nothing has been torn down or navigated yet), and the next effect
execution - triggered by reaching zero - stops each local track once, closes
the CallHandle, destroys the peer, and navigates to the text-chat fallback of
the same session, exactly once: giving the loop more fuel changes nothing. -/
theorem countdown_from_ten_expires_once (sid : String) :
    (runTimer sid 9 seededCallState).timeLeft = 1 ∧
    (runTimer sid 10 seededCallState).timeLeft = 0 ∧
    (runTimer sid 10 seededCallState).pushes = [] ∧
    (runTimer sid 10 seededCallState).tracks = seededCallState.tracks ∧
    runTimer sid 11 seededCallState =
      { timeLeft := 0,
        connectionStatus := "Connected",
        currentCall := none,
        localStream := none,
        localVideoSrc := none,
        peer := some { peerId := "peer-A", destroyed := true },
        tracks := [{ enabled := true, stopCount := 1 }, { enabled := true, stopCount := 1 }],
        calls := [{ remotePeer := "peer-B", inbound := true, closed := true }],
        pushes := ["/chat/" ++ sid],
        brokerOps := [BrokerOp.closeCall, BrokerOp.destroyPeer] } ∧
    runTimer sid 20 seededCallState = runTimer sid 11 seededCallState := by
  refine ⟨rfl, rfl, rfl, rfl, rfl, rfl⟩

/-- The shape of a `getMatchmakingStatus` response, restricted to the fields
the call page reads.  `timeLeft` is the backend-reported remaining time in
milliseconds (a JavaScript number, possibly absent). -/
structure StatusResp where
  status : String
  sessionId : Option String := none
  timeLeft : Option Int := none
deriving DecidableEq, Repr

/-- `checkSession` (source lines 223-239), success path of the fetch:

* `if (status.status !== "in_session" || status.sessionId !== sessionId)
  { router.push("/"); return; }`
* `if (status.timeLeft) { setTimeLeft(Math.floor(status.timeLeft / 1000)); }` -
  JavaScript truthiness: an absent value and the number 0 are falsy, every
  other number is truthy; `Math.floor` of the millisecond quotient is floor
  division, `Int.fdiv`. -/
def checkSession (sid : String) (resp : StatusResp) (s : PageState) : PageState :=
  if resp.status ≠ "in_session" ∨ resp.sessionId ≠ some sid then
    pushRoute "/" s
  else
    match resp.timeLeft with
    | some t => if t ≠ 0 then { s with timeLeft := Int.fdiv t 1000 } else s
    | none => s

/-- C5: whenever a resync response reports the session as not active or
carries a session identifier different from the active one, `checkSession`
performs exactly the external redirect to the landing page - whatever the
current countdown value - and changes nothing else; in particular the local
countdown is not updated from that response. -/
theorem session_mismatch_redirects_immediately (sid : String) (resp : StatusResp) (s : PageState)
    (h : resp.status ≠ "in_session" ∨ resp.sessionId ≠ some sid) :
    checkSession sid resp s = { s with pushes := s.pushes ++ ["/"] } ∧
    (checkSession sid resp s).timeLeft = s.timeLeft := by
  rw [checkSession, if_pos h]
  exact ⟨rfl, rfl⟩

/-- Witness for C5: a resync at tick 2 of a session seeded with 500 seconds
remaining that reports a different session identifier redirects at once and
leaves the countdown alone. -/
theorem session_mismatch_redirects_immediately_witness :
    checkSession "s1" { status := "in_session", sessionId := some "s2", timeLeft := some 777000 }
        { timeLeft := 498 } =
      { timeLeft := 498, pushes := ["/"] } ∧
    (checkSession "s1" { status := "in_session", sessionId := some "s2", timeLeft := some 777000 }
        { timeLeft := 498 }).timeLeft = 498 :=
  session_mismatch_redirects_immediately "s1"
    { status := "in_session", sessionId := some "s2", timeLeft := some 777000 }
    { timeLeft := 498 } (Or.inr (by decide))

/-- C10 counterexample: the resync gate is JavaScript truthiness, not strict
positivity.  A response that reports the session active with the matching
identifier and `timeLeft = -1` (a truthy, non-positive number) DOES
resynchronize the local countdown - here from 3600 down to `fdiv (-1) 1000 =
-1` - refuting "only a strictly positive reported timeLeft resynchronizes the
local countdown". -/
theorem negative_time_left_resyncs :
    (checkSession "s1" { status := "in_session", sessionId := some "s1", timeLeft := some (-1) }
        {}).timeLeft = -1 ∧
    ({} : PageState).timeLeft = 3600 ∧ ¬ (0 < (-1 : Int)) := by
  refine ⟨rfl, rfl, by decide⟩

/-- C10 (amended): for an active, identifier-matching resync response, an
absent `timeLeft` or one equal to 0 leaves the page state (in particular the
local countdown) unchanged, while any nonzero `timeLeft` - every strictly
positive one, but also any negative one - resynchronizes the countdown to the
floor of `timeLeft / 1000` and changes nothing else. -/
theorem resync_time_left_update_rule (sid : String) (resp : StatusResp) (s : PageState)
    (h1 : resp.status = "in_session") (h2 : resp.sessionId = some sid) :
    ((resp.timeLeft = none ∨ resp.timeLeft = some 0) → checkSession sid resp s = s) ∧
    (∀ t : Int, resp.timeLeft = some t → t ≠ 0 →
      checkSession sid resp s = { s with timeLeft := Int.fdiv t 1000 }) := by
  have hcond : ¬ (resp.status ≠ "in_session" ∨ resp.sessionId ≠ some sid) := by
    push_neg
    exact ⟨h1, h2⟩
  constructor
  · intro hzero
    rw [checkSession, if_neg hcond]
    rcases hzero with hn | h0
    · rw [hn]
    · rw [h0]
      simp
  · intro t ht htne
    rw [checkSession, if_neg hcond, ht]
    simp [htne]

/-- Witness for the amended C10: with a matching active session, `timeLeft =
some 0` leaves the countdown alone and `timeLeft = some 7999` sets it to 7. -/
theorem resync_time_left_update_rule_witness :
    checkSession "s1" { status := "in_session", sessionId := some "s1", timeLeft := some 0 }
        { timeLeft := 250 } = { timeLeft := 250 } ∧
    checkSession "s1" { status := "in_session", sessionId := some "s1", timeLeft := some 7999 }
        { timeLeft := 250 } = { timeLeft := 7 } := by
  constructor
  · exact (resync_time_left_update_rule "s1"
      { status := "in_session", sessionId := some "s1", timeLeft := some 0 }
      { timeLeft := 250 } rfl rfl).1 (Or.inr rfl)
  · have h := (resync_time_left_update_rule "s1"
      { status := "in_session", sessionId := some "s1", timeLeft := some 7999 }
      { timeLeft := 250 } rfl rfl).2 7999 rfl (by decide)
    rw [h]
    decide

/-- The registration flow state for the broker identity: how many fresh random
suffixes have been drawn (`seed` indexes the ambient randomness stream), every
peer identity generated so far, every registration sent to the broker, and the
user-visible error. -/
structure RegState where
  seed : Nat := 0
  generatedIds : List String := []
  registrations : List String := []
  error : Option String := none
deriving DecidableEq, Repr

/-- Peer identity format (source lines 50-51): session identifier, user
identifier and a random suffix, dash-separated. -/
def mkPeerId (sid uid suffix : String) : String :=
  sid ++ "-" ++ uid ++ "-" ++ suffix

/-- `initPeer` embeds `initializePeer` (source lines 48-66): draw a fresh
random suffix (`Math.random().toString(36)...`, modelled by the ambient stream
`suffixes` indexed by `seed`), build the peer identity, and register it with
the broker by constructing `new Peer(myPeerId, ...)`. -/
def initPeer (suffixes : Nat → String) (sid uid : String) (s : RegState) : RegState :=
  let myId := mkPeerId sid uid (suffixes s.seed)
  { s with seed := s.seed + 1,
           generatedIds := s.generatedIds ++ [myId],
           registrations := s.registrations ++ [myId] }

/-- The `newPeer.on("error")` handler (source lines 148-156):
`if (error.type === "unavailable-id") { initializePeer(); } else
{ setError("Connection error: " + error.type); }`. -/
def handlePeerError (suffixes : Nat → String) (sid uid : String) (etype : String)
    (s : RegState) : RegState :=
  if etype = "unavailable-id" then initPeer suffixes sid uid s
  else { s with error := some ("Connection error: " ++ etype) }

/-- C6: on the identifier-collision error type the manager draws a fresh
random suffix, generates a new peer identity and registers it again, leaving
the user-visible error exactly as it was (nothing surfaced); on every other
broker error type it surfaces a fatal connection error naming the type and
performs no new generation or registration (no retry). -/
theorem registration_error_handling (suffixes : Nat → String) (sid uid etype : String)
    (s : RegState) :
    (etype = "unavailable-id" →
      handlePeerError suffixes sid uid etype s =
        { s with seed := s.seed + 1,
                 generatedIds := s.generatedIds ++ [mkPeerId sid uid (suffixes s.seed)],
                 registrations := s.registrations ++ [mkPeerId sid uid (suffixes s.seed)] }) ∧
    (etype ≠ "unavailable-id" →
      handlePeerError suffixes sid uid etype s =
        { s with error := some ("Connection error: " ++ etype) }) := by
  constructor
  · intro h
    rw [handlePeerError, if_pos h]
    rfl
  · intro h
    rw [handlePeerError, if_neg h]

/-- Witness for C6 at concrete inputs: a collision retries silently, a
`"network"` error is surfaced without a retry. -/
theorem registration_error_handling_witness :
    handlePeerError (fun _ => "k3x") "s1" "u1" "unavailable-id" {} =
      { seed := 1, generatedIds := ["s1-u1-k3x"], registrations := ["s1-u1-k3x"] } ∧
    handlePeerError (fun _ => "k3x") "s1" "u1" "network" {} =
      { error := some "Connection error: network" } := by
  constructor
  · exact (registration_error_handling (fun _ => "k3x") "s1" "u1" "unavailable-id" {}).1 rfl
  · exact (registration_error_handling (fun _ => "k3x") "s1" "u1" "network" {}).2 (by decide)

/-- The three kinds of timer the call page schedules: the recursive 1-second
partner-discovery retry `setTimeout(attemptConnection, 1000)` (source
line 123, whose handle is stored nowhere), the 5-second session-authority
`setInterval(checkSession, 5000)` (line 241, cleared by its effect cleanup at
line 244), and the 1-second countdown `setTimeout` (line 253, cleared by its
effect cleanup at line 254). -/
inductive TimerKind where
  | partnerRetry
  | sessionInterval
  | countdown
deriving DecidableEq, Repr

/-- Scheduler view of the page: the timers currently pending, whether teardown
has begun, and how many backend status fetches the callbacks have performed. -/
structure PollState where
  pending : List TimerKind
  tornDown : Bool
  fetches : Nat
deriving DecidableEq, Repr

/-- Teardown of the call page: React runs every effect cleanup.  The session
effect cleanup runs `clearInterval(interval)` and the countdown effect cleanup
runs `clearTimeout(timer)`; the mount effect cleanup (source lines 207-216)
runs `cleanupMedia()` and the best-effort peer-identifier removal but clears
no timer, so a pending partner-discovery retry stays scheduled. -/
def unmountCleanup (s : PollState) : PollState :=
  { s with tornDown := true,
           pending := s.pending.filter fun k =>
             decide (k ≠ TimerKind.sessionInterval ∧ k ≠ TimerKind.countdown) }

/-- A pending partner-discovery retry fires: `attemptConnection` (source lines
101-125) contains no torn-down check, so it unconditionally performs the
`getMatchmakingStatus` fetch; when no partner is visible yet it schedules
itself again. -/
def firePartnerRetry (partnerVisible : Bool) (s : PollState) : PollState :=
  if TimerKind.partnerRetry ∈ s.pending then
    let s1 := { s with pending := s.pending.erase TimerKind.partnerRetry,
                       fetches := s.fetches + 1 }
    if partnerVisible then s1 else { s1 with pending := s1.pending ++ [TimerKind.partnerRetry] }
  else s

/-- C3 counterexample: teardown begins while a partner-discovery retry is
pending; the retry survives the teardown, then fires and acts - it performs a
backend fetch and even schedules itself again - refuting "no polling-timer
callback ever acts again after teardown has begun". -/
theorem partner_poll_acts_after_teardown :
    (unmountCleanup { pending := [TimerKind.partnerRetry, TimerKind.sessionInterval, TimerKind.countdown],
                      tornDown := false, fetches := 0 }) =
      { pending := [TimerKind.partnerRetry], tornDown := true, fetches := 0 } ∧
    firePartnerRetry false
        (unmountCleanup { pending := [TimerKind.partnerRetry, TimerKind.sessionInterval, TimerKind.countdown],
                          tornDown := false, fetches := 0 }) =
      { pending := [TimerKind.partnerRetry], tornDown := true, fetches := 1 } := by
  refine ⟨by decide, by decide⟩

/-- C3 (amended): teardown synchronously cancels the 5-second
session-authority interval and the pending 1-second countdown timeout, but it
does not cancel a pending 1-second partner-discovery retry, whose callback
still acts (performs a backend fetch) when it later fires. -/
theorem teardown_cancels_session_and_countdown_only (pending : List TimerKind)
    (td : Bool) (n : Nat) :
    TimerKind.sessionInterval ∉ (unmountCleanup { pending := pending, tornDown := td, fetches := n }).pending ∧
    TimerKind.countdown ∉ (unmountCleanup { pending := pending, tornDown := td, fetches := n }).pending ∧
    (unmountCleanup { pending := pending, tornDown := td, fetches := n }).tornDown = true ∧
    (TimerKind.partnerRetry ∈ pending →
      TimerKind.partnerRetry ∈ (unmountCleanup { pending := pending, tornDown := td, fetches := n }).pending ∧
      (firePartnerRetry false (unmountCleanup { pending := pending, tornDown := td, fetches := n })).fetches
        = n + 1) := by
  refine ⟨?_, ?_, rfl, ?_⟩
  · simp [unmountCleanup, List.mem_filter]
  · simp [unmountCleanup, List.mem_filter]
  · intro hp
    have hmem : TimerKind.partnerRetry ∈
        (unmountCleanup { pending := pending, tornDown := td, fetches := n }).pending := by
      simp [unmountCleanup, List.mem_filter]
      exact hp
    refine ⟨hmem, ?_⟩
    rw [firePartnerRetry, if_pos hmem]
    simp [unmountCleanup]

/-- Witness for the amended C3 at a concrete scheduler state. -/
theorem teardown_cancels_session_and_countdown_only_witness :
    TimerKind.sessionInterval ∉
      (unmountCleanup { pending := [TimerKind.sessionInterval, TimerKind.partnerRetry, TimerKind.countdown],
                        tornDown := false, fetches := 5 }).pending ∧
    TimerKind.partnerRetry ∈
      (unmountCleanup { pending := [TimerKind.sessionInterval, TimerKind.partnerRetry, TimerKind.countdown],
                        tornDown := false, fetches := 5 }).pending ∧
    (firePartnerRetry false
      (unmountCleanup { pending := [TimerKind.sessionInterval, TimerKind.partnerRetry, TimerKind.countdown],
                        tornDown := false, fetches := 5 })).fetches = 6 := by
  have h := teardown_cancels_session_and_countdown_only
    [TimerKind.sessionInterval, TimerKind.partnerRetry, TimerKind.countdown] false 5
  have hp : TimerKind.partnerRetry ∈
      [TimerKind.sessionInterval, TimerKind.partnerRetry, TimerKind.countdown] := by decide
  exact ⟨h.1, (h.2.2.2 hp).1, (h.2.2.2 hp).2⟩

end CallPage
